import Mathlib

/-!
Verification development for the Reddit-Sentiment-Intelligence repository.

Shallow embedding of the analytics pipeline:
  * src/app.py           — sentiment classification, input validation, the
                           date/score filter, top-post selection, session flow
  * src/reddit_fetch.py  — normalization (date derivation) and schema check
  * src/morocco_analysis.py and src/industry_analysis.py — keyword tagging
  * src/report_generator.py — the PDF metrics section and the JSON export

Modelling conventions:
  * Python floats are modelled as exact rationals (ℚ); fractional literals are
    written with mkRat so that concrete values reduce in the kernel.
  * pandas NaN (the mean of an empty column) is modelled as Option.none.
  * Python strings are modelled as List Char; str.contains with case=False is
    modelled as case-insensitive literal substring search (the source passes
    either re.escape-d keywords or plain search terms to the regex engine).
  * Calendar dates and timestamps are integers (days, seconds); the
    to_datetime(...).dt.date derivation is modelled as floor division by 86400.
  * Python exceptions that the translated code can actually raise are
    modelled with Except: ZeroDivisionError in the report metrics, and the
    TypeError raised by the lru_cache-wrapped normalizer, whose wrapper
    hashes its pandas DataFrame argument — DataFrames are unhashable, so
    every call raises before the function body runs.
-/

/-- One row of the post table.  Field names follow the DataFrame columns built
by fetch_posts_safely in src/reddit_fetch.py, plus the two derived columns
date (process_reddit_data) and Sentiment (cached_processing). -/
structure Post where
  title : List Char
  text : List Char
  score : ℤ
  num_comments : ℤ
  created : ℤ
  url : List Char
  sentiment_neg : ℚ
  sentiment_neu : ℚ
  sentiment_pos : ℚ
  sentiment_compound : ℚ
  date : ℤ
  Sentiment : String
deriving DecidableEq

/-- classify_sentiment from src/app.py lines 157-163.  The float literal 0.05
is modelled as the exact rational 5/100. -/
def classify_sentiment (compound_score : ℚ) : String :=
  if compound_score ≥ mkRat 5 100 then "Positive"
  else if compound_score ≤ -(mkRat 5 100) then "Negative"
  else "Neutral"

/-- Calendar-date derivation pd.to_datetime of the created column followed by
dt.date, modelled as
whole days since the epoch (time of day discarded by floor division). -/
def dateOfTimestamp (t : ℤ) : ℤ := Int.fdiv t 86400

/-- The Python exceptions the translated code can raise: the unguarded
ZeroDivisionError of the report metrics section, and the TypeError raised by
functools.lru_cache when it hashes an unhashable argument. -/
inductive PyError
  | zeroDivision
  | typeError
deriving DecidableEq

/-- The body of process_reddit_data, src/reddit_fetch.py lines 58-61: copy the
table and derive the date column from the created column.  In the current
program this body is dead code (the lru_cache wrapper below raises before it
runs); it is kept as the reference for the date-derivation operation the spec
describes. -/
def process_reddit_data_body (df : List Post) : List Post :=
  df.map fun p => { p with date := dateOfTimestamp p.created }

/-- process_reddit_data as callable, src/reddit_fetch.py lines 56-61: the
function is decorated with lru_cache(maxsize=1), whose wrapper hashes the
DataFrame argument to build the cache key.  pandas DataFrames are unhashable
(hashing one raises TypeError), so every call raises TypeError before
process_reddit_data_body is reached. -/
def process_reddit_data (_df : List Post) : Except PyError (List Post) :=
  .error .typeError

/-- validate_reddit_data from src/reddit_fetch.py lines 63-66: checks that the
title, sentiment_compound and created columns exist.  In the typed model every
collection carries all required fields, so the check always passes. -/
def validate_reddit_data (_df : List Post) : Bool := true

/-- The labelling step cached_processing would perform on a successful inner
call, src/app.py lines 167-170: normalize, then attach the Sentiment column
(the sentiment_compound column always exists in the typed model, so the guard
on its presence is taken).  Dead code in the current program, like
process_reddit_data_body. -/
def cached_processing_body (df : List Post) : List Post :=
  (process_reddit_data_body df).map fun p =>
    { p with Sentiment := classify_sentiment p.sentiment_compound }

/-- cached_processing from src/app.py lines 165-170 as callable: it calls the
lru_cache-wrapped process_reddit_data, so the TypeError propagates and the
Sentiment-labelling line is never reached. -/
def cached_processing (df : List Post) : Except PyError (List Post) := do
  let processed ← process_reddit_data df
  .ok (processed.map fun p =>
    { p with Sentiment := classify_sentiment p.sentiment_compound })

/-- The filter applied to the dashboard data, src/app.py lines 322-326:
date within the applied range (inclusive both ends) and score at least the
minimum. -/
def filtered_df (df : List Post) (startDate endDate minScore : ℤ) : List Post :=
  df.filter fun p =>
    decide (startDate ≤ p.date) && decide (p.date ≤ endDate) &&
      decide (minScore ≤ p.score)

/-- The session state of the dashboard (src/app.py lines 137-152): the pending
(temp) date range edited in the picker, the applied date range used by the
filter, the minimum-score slider, the processed data and the readiness flags. -/
structure AppState where
  tempStart : ℤ
  tempEnd : ℤ
  appliedStart : ℤ
  appliedEnd : ℤ
  minScore : ℤ
  originalDf : Option (List Post)
  rawCount : ℕ
  dataReady : Bool
  fetchClicked : Bool
deriving DecidableEq

/-- validate_inputs from src/app.py lines 172-180: the only check is that the
pending (temp) start date is not after the pending end date. -/
def validate_inputs (s : AppState) : List String :=
  if s.tempEnd < s.tempStart then ["Start date must be before end date"] else []

/-- apply_date_range from src/app.py lines 182-185: the Apply button copies the
pending dates into the applied dates, with no validation. -/
def apply_date_range (s : AppState) : AppState :=
  { s with appliedStart := s.tempStart, appliedEnd := s.tempEnd }

/-- The date_range_picker update (src/app.py lines 229-237): the user selects a
new pending range. -/
def setTempDates (s : AppState) (a b : ℤ) : AppState :=
  { s with tempStart := a, tempEnd := b }

/-- The fetch-button handler, src/app.py lines 267-313, for an incoming data
frame df (fetched or uploaded): on validation errors data_ready is cleared and
nothing is processed.  Otherwise processing runs inside try/except: if
cached_processing returns, the processed table is stored and data_ready set —
a branch that exists in the source but is never reached in the current code,
because cached_processing always raises TypeError; that exception is caught
by the handler of lines 311-313, which clears data_ready. -/
def fetch_button (s : AppState) (df : List Post) : AppState :=
  let s1 := { s with fetchClicked := true }
  if validate_inputs s1 ≠ [] then
    { s1 with dataReady := false }
  else if validate_reddit_data df then
    match cached_processing df with
    | .ok processed =>
        { s1 with originalDf := some processed,
                  rawCount := df.length, dataReady := true }
    | .error _ => { s1 with dataReady := false }
  else
    { s1 with dataReady := false }

/-- The main dashboard gate and filter, src/app.py lines 320-326: the filtered
collection is computed (on every rerun) exactly when fetch was clicked, the
data is ready and a processed table exists; otherwise nothing is produced. -/
def renderFilteredDf (s : AppState) : Option (List Post) :=
  match s.originalDf with
  | some df =>
      if s.fetchClicked && s.dataReady then
        some (filtered_df df s.appliedStart s.appliedEnd s.minScore)
      else none
  | none => none

/-- The four sort criteria of the Top Performing Posts tab
(src/app.py lines 489-494). -/
inductive SortBy
  | highestScore
  | mostComments
  | mostRecent
  | mostPositive
deriving DecidableEq

/-- The column sorted by, src/app.py sort_options (lines 489-494). -/
def sort_column : SortBy → String
  | .highestScore => "score"
  | .mostComments => "num_comments"
  | .mostRecent => "date"
  | .mostPositive => "sentiment_compound"

/-- src/app.py line 501: ascending = sort_column == "date" if
sort_by == "Most Recent" else False.  Only Most Recent sorts ascending. -/
def ascending (s : SortBy) : Bool :=
  if s = .mostRecent then decide (sort_column s = "date") else false

/-- Comparison of two posts on the sorted column, in ascending field order. -/
def fieldLe (s : SortBy) (a b : Post) : Bool :=
  match s with
  | .highestScore => decide (a.score ≤ b.score)
  | .mostComments => decide (a.num_comments ≤ b.num_comments)
  | .mostRecent => decide (a.date ≤ b.date)
  | .mostPositive => decide (a.sentiment_compound ≤ b.sentiment_compound)

/-- The order actually used by sort_values: the column order when ascending,
its reverse otherwise. -/
def sortLeB (s : SortBy) (a b : Post) : Bool :=
  if ascending s then fieldLe s a b else fieldLe s b a

/-- top_posts from src/app.py line 503:
filtered_df.sort_values(sort_column, ascending=ascending).head(show_count).
The sort is modelled by a stable insertion sort. -/
def top_posts (df : List Post) (s : SortBy) (n : ℕ) : List Post :=
  (List.insertionSort (fun a b => sortLeB s a b = true) df).take n

/-- Case-insensitive literal substring test, modelling
str.contains(needle, case=False, na=False) for a regex-free needle (the
industry and Morocco keyword patterns are built with re.escape). -/
def containsCI (needle hay : List Char) : Bool :=
  decide ((needle.map Char.toLower) <:+: (hay.map Char.toLower))

/-- The search-term pre-filter shared by get_morocco_metrics (line 61-62) and
the industry search filter: Python treats None and the empty string as falsy,
so those leave the collection unchanged. -/
def searchTermFilter (df : List Post) (search_term : Option (List Char)) :
    List Post :=
  match search_term with
  | none => df
  | some t => if t.isEmpty then df else df.filter fun p => containsCI t p.title

/-- A character kept by the punctuation-stripping re.sub of get_top_keywords,
which removes characters that are neither word characters nor whitespace:
word characters (modelled at
the ASCII level as alphanumeric or underscore) and whitespace survive. -/
def keptChar (c : Char) : Bool := c.isAlphanum || c = '_' || c.isWhitespace

/-- Splitting on whitespace runs with no empty words, modelling str.split(). -/
def splitWhite : List Char → List Char → List (List Char)
  | [], acc => if acc.isEmpty then [] else [acc.reverse]
  | c :: cs, acc =>
      if c.isWhitespace then
        if acc.isEmpty then splitWhite cs []
        else acc.reverse :: splitWhite cs []
      else splitWhite cs (c :: acc)

/-- STOP_WORDS of get_top_keywords in src/morocco_analysis.py lines 40-43. -/
def STOP_WORDS : List (List Char) :=
  ["the".toList, "and".toList, "of".toList, "to".toList, "in".toList,
   "is".toList, "it".toList, "that".toList, "this".toList,
   "ال".toList, "في".toList, "من".toList, "على".toList, "أن".toList,
   "هذا".toList]

/-- The tokens contributed by one title: lower-cased, punctuation stripped,
split on whitespace, stop words and words of length at most 2 removed
(src/morocco_analysis.py lines 45-51). -/
def cleanWords (post : List Char) : List (List Char) :=
  (splitWhite ((post.map Char.toLower).filter keptChar) []).filter fun w =>
    !STOP_WORDS.any (fun s => s == w) && decide (w.length > 2)

/-- One step of collections.Counter: counts keyed by first occurrence. -/
def tallyStep (acc : List (List Char × ℕ)) (w : List Char) :
    List (List Char × ℕ) :=
  if acc.any (fun e => e.1 == w) then
    acc.map fun e => if e.1 == w then (e.1, e.2 + 1) else e
  else acc ++ [(w, 1)]

/-- collections.Counter(words): association list in first-occurrence order. -/
def tally (ws : List (List Char)) : List (List Char × ℕ) := ws.foldl tallyStep []

/-- Counter.most_common(n): stable sort by count descending, first n entries.
The Python sorted builtin is stable, as is the insertion sort used here. -/
def most_common (c : List (List Char × ℕ)) (n : ℕ) : List (List Char × ℕ) :=
  (List.insertionSort (fun a b => (decide (b.2 ≤ a.2)) = true) c).take n

/-- get_top_keywords from src/morocco_analysis.py lines 38-53 (the manual
fallback extraction; the spec names it the reference behavior for the
vectorized variant). -/
def get_top_keywords (posts : List (List Char)) (n : ℕ := 10) :
    List (List Char) :=
  (most_common (tally ((posts.map cleanWords).flatten)) n).map (·.1)

/-- The record returned by get_morocco_metrics
(src/morocco_analysis.py lines 85-91). -/
structure MoroccoMetrics where
  morocco_posts : List Post
  avg_sentiment : Option ℚ
  post_count : ℕ
  top_keywords : List (List Char)
  sample_posts : List (List Char × ℚ)
deriving DecidableEq

/-- pandas Series.mean(): NaN (modelled none) on an empty column, otherwise
the arithmetic mean. -/
def seriesMean (l : List ℚ) : Option ℚ :=
  if l.isEmpty then none else some (l.sum / (l.length : ℚ))

/-- The metrics record built in the final return of get_morocco_metrics for a
matching subset mp. -/
def mkMoroccoMetrics (mp : List Post) : MoroccoMetrics :=
  { morocco_posts := mp
    avg_sentiment := seriesMean (mp.map (·.sentiment_compound))
    post_count := mp.length
    top_keywords := get_top_keywords (mp.map (·.title))
    sample_posts := (mp.take 3).map fun p => (p.title, p.sentiment_compound) }

/-- get_morocco_metrics from src/morocco_analysis.py lines 55-91: None on an
empty input; search-term pre-filter; then the keyword filter, where an empty
keyword list takes df.copy() (every post); None if no post remains; otherwise
the metrics over the matching subset.  The keyword extraction is modelled by
the manual fallback get_top_keywords. -/
def get_morocco_metrics (df : List Post) (keywords : List (List Char))
    (search_term : Option (List Char)) : Option MoroccoMetrics :=
  if df.isEmpty then none
  else
    let df1 := searchTermFilter df search_term
    let morocco_posts :=
      if !keywords.isEmpty then
        df1.filter fun p => keywords.any fun k => containsCI k p.title
      else df1
    if morocco_posts.isEmpty then none
    else some (mkMoroccoMetrics morocco_posts)

/-- One row of the industry result table
(src/industry_analysis.py lines 33-38). -/
structure IndustryEntry where
  Industry : String
  Posts : ℕ
  AvgSentiment : Option ℚ
deriving DecidableEq

/-- The category pattern match of analyze_industries:
"|".join(terms) used as a case-insensitive regex.  An empty term list yields
the empty pattern, which matches every title. -/
def categoryMatch (terms : List (List Char)) (t : List Char) : Bool :=
  if terms.isEmpty then true else terms.any fun k => containsCI k t

/-- The per-category body of the analyze_industries loop
(src/industry_analysis.py lines 22-38): posts whose title matches the category
pattern, then the optional search-term filter; an entry is appended only when
the subset is non-empty. -/
def categoryResult (df : List Post) (search_term : Option (List Char))
    (name : String) (terms : List (List Char)) : Option IndustryEntry :=
  let industry_posts := df.filter fun p => categoryMatch terms p.title
  let industry_posts := searchTermFilter industry_posts search_term
  if industry_posts.isEmpty then none
  else
    some { Industry := name, Posts := industry_posts.length,
           AvgSentiment :=
             seriesMean (industry_posts.map (·.sentiment_compound)) }

/-- GLOBAL_INDUSTRIES from src/industry_analysis.py lines 7-14. -/
def GLOBAL_INDUSTRIES : List (String × List (List Char)) :=
  [("Real Estate", ["house".toList, "property".toList, "rent".toList,
      "buy".toList, "lease".toList, "real estate".toList,
      "immobilier".toList]),
   ("Tech", ["AI".toList, "software".toList, "app".toList, "code".toList,
      "programming".toList, "algorithm".toList]),
   ("Finance", ["bank".toList, "loan".toList, "invest".toList,
      "stock".toList, "crypto".toList, "money".toList]),
   ("Education", ["school".toList, "university".toList, "learn".toList,
      "student".toList, "course".toList]),
   ("Healthcare", ["hospital".toList, "doctor".toList, "medicine".toList,
      "health".toList, "patient".toList]),
   ("Tourism", ["hotel".toList, "travel".toList, "visit".toList,
      "tour".toList, "vacation".toList])]

/-- analyze_industries from src/industry_analysis.py lines 16-40: None on an
empty input, otherwise the rows produced by the per-category loop over
GLOBAL_INDUSTRIES. -/
def analyze_industries (df : List Post) (search_term : Option (List Char)) :
    Option (List IndustryEntry) :=
  if df.isEmpty then none
  else some (GLOBAL_INDUSTRIES.filterMap fun c =>
    categoryResult df search_term c.1 c.2)

/-- Python division of a float by a collection length: raises
ZeroDivisionError when the length is 0, otherwise exact division. -/
def pydiv (a : ℚ) (b : ℕ) : Except PyError ℚ :=
  if b = 0 then .error .zeroDivision else .ok (a / (b : ℚ))

/-- The positive count of the metrics section and of generate_json
(src/report_generator.py line 64 and line 149; both sites compute
len(self.df[self.df["Sentiment"] == "Positive"]) independently). -/
def pdf_positive (df : List Post) : ℕ :=
  (df.filter fun p => p.Sentiment == "Positive").length

/-- src/report_generator.py line 65. -/
def pdf_negative (df : List Post) : ℕ :=
  (df.filter fun p => p.Sentiment == "Negative").length

/-- src/report_generator.py line 66. -/
def pdf_neutral (df : List Post) : ℕ :=
  (df.filter fun p => p.Sentiment == "Neutral").length

/-- The numbers of the Key Metrics section of the PDF
(src/report_generator.py lines 57-81).  The percentages divide by the total
post count with no guard, so the section raises ZeroDivisionError on an empty
collection; the mean itself is pandas NaN there but formatting NaN does not
raise. -/
structure MetricsData where
  searchTerm : List Char
  total : ℕ
  avg : Option ℚ
  positive : ℕ
  negative : ℕ
  neutral : ℕ
  positivePct : ℚ
  negativePct : ℚ
  neutralPct : ℚ
deriving DecidableEq

/-- EnhancedPDFGenerator._add_metrics_section, src/report_generator.py
lines 57-81, reduced to the numbers it renders. -/
def metricsSection (df : List Post) (search_term : List Char) :
    Except PyError MetricsData := do
  let positive := pdf_positive df
  let negative := pdf_negative df
  let neutral := pdf_neutral df
  let pp ← pydiv (positive : ℚ) df.length
  let np ← pydiv (negative : ℚ) df.length
  let up ← pydiv (neutral : ℚ) df.length
  .ok { searchTerm := search_term
        total := df.length
        avg := seriesMean (df.map (·.sentiment_compound))
        positive := positive, negative := negative, neutral := neutral
        positivePct := pp * 100, negativePct := np * 100,
        neutralPct := up * 100 }

/-- A row of the top_posts list of generate_json
(src/report_generator.py line 158). -/
structure TopPostRow where
  title : List Char
  Sentiment : String
  score : ℤ
  num_comments : ℤ
deriving DecidableEq

/-- df.nlargest(5, "score"): the five largest scores, ties kept in original
order (the pandas keep first behavior); modelled by a stable descending
sort. -/
def nlargestByScore (df : List Post) (n : ℕ) : List Post :=
  (List.insertionSort (fun a b => (decide (b.score ≤ a.score)) = true) df).take n

/-- The JSON-like record returned by generate_json
(src/report_generator.py lines 148-159). -/
structure ReportJson where
  search_term : List Char
  total_posts : ℕ
  average_sentiment : Option ℚ
  positive : ℕ
  negative : ℕ
  neutral : ℕ
  top_posts : List TopPostRow
deriving DecidableEq

/-- EnhancedPDFGenerator.generate_json, src/report_generator.py lines 148-159.
float(mean) of an empty column is NaN (modelled none); nothing in this path
raises, so an empty collection yields a record, not an error. -/
def generate_json (df : List Post) (search_term : List Char) : ReportJson :=
  { search_term := search_term
    total_posts := df.length
    average_sentiment := seriesMean (df.map (·.sentiment_compound))
    positive := pdf_positive df
    negative := pdf_negative df
    neutral := pdf_neutral df
    top_posts := (nlargestByScore df 5).map fun p =>
      { title := p.title, Sentiment := p.Sentiment, score := p.score,
        num_comments := p.num_comments } }

/-- _build_pdf_content, src/report_generator.py lines 39-46: header (no
files), the metrics section (the only step of the translation that can
raise), then the visuals section, which saves the sentiment chart (the
Sentiment column always exists in the typed model), the trend chart (the date
column always exists) and no industry chart (the model has no industry
column).  Returns the outcome together with the chart files created before
the outcome. -/
def buildPdfContent (df : List Post) (search_term : List Char) :
    Except PyError Unit × List String :=
  match metricsSection df search_term with
  | .error e => (.error e, [])
  | .ok _ => (.ok (), ["sentiment.png", "trend.png"])

/-- The observable effects of one generate_pdf invocation
(src/report_generator.py lines 21-31): whether a document was produced, which
chart files were created, which were deleted, and whether the per-invocation
temporary directory (tempfile.mkdtemp of line 18) was removed. -/
structure RenderResult where
  ok : Bool
  chartsCreated : List String
  chartsDeleted : List String
  tempDirRemoved : Bool
deriving DecidableEq

/-- EnhancedPDFGenerator.generate_pdf, src/report_generator.py lines 21-31:
the cleanup loop and os.rmdir are sequenced after self.output with no
try/finally, so they run only when _build_pdf_content returned normally; an
exception propagates and skips the cleanup. -/
def generate_pdf (df : List Post) (search_term : List Char) : RenderResult :=
  match buildPdfContent df search_term with
  | (.ok _, files) =>
      { ok := true, chartsCreated := files, chartsDeleted := files,
        tempDirRemoved := true }
  | (.error _, files) =>
      { ok := false, chartsCreated := files, chartsDeleted := [],
        tempDirRemoved := false }

/-- Whether one post passes the search-term pre-filter (pointwise form of
searchTermFilter, used to state membership properties). -/
def searchPass (search_term : Option (List Char)) (p : Post) : Bool :=
  match search_term with
  | none => true
  | some t => if t.isEmpty then true else containsCI t p.title

/-- Helper to build concrete posts for witnesses and counterexamples. -/
def mkPost (title : List Char) (score num_comments created : ℤ)
    (sentiment_compound : ℚ) (date : ℤ) (Sentiment : String) : Post :=
  { title := title, text := [], score := score, num_comments := num_comments,
    created := created, url := [], sentiment_neg := 0, sentiment_neu := 0,
    sentiment_pos := 0, sentiment_compound := sentiment_compound,
    date := date, Sentiment := Sentiment }

/-- A concrete normalized post dated day 0. -/
def post_older : Post := mkPost "Morocco travel tips".toList 10 3 0 0 0 "Neutral"

/-- A concrete normalized post dated day 1 (newer than post_older). -/
def post_newer : Post :=
  mkPost "visit Casablanca".toList 5 7 86400 0 1 "Neutral"

/-- A concrete post whose title matches no industry keyword. -/
def post_hello : Post := mkPost "Hello world".toList 3 1 0 0 0 "Neutral"

/-- The session-state initialization of src/app.py lines 137-152: pending and
applied ranges both from 2018-03-14 (day 17604) to today (a parameter), the
minimum score 0, no data, no flags set. -/
def initial_state (today : ℤ) : AppState :=
  { tempStart := 17604, tempEnd := today, appliedStart := 17604,
    appliedEnd := today, minScore := 0, originalDf := none, rawCount := 0,
    dataReady := false, fetchClicked := false }

/-- The minimum-score slider update (src/app.py lines 245-252). -/
def set_min_score (s : AppState) (m : ℤ) : AppState := { s with minScore := m }

/-- The session states reachable from the initialization through the user
interactions of the sidebar: picking a pending date range, clicking Apply,
moving the score slider, and clicking Fetch and Analyze with some incoming
table. -/
inductive Reachable : AppState → Prop
  | init (today : ℤ) : Reachable (initial_state today)
  | pick (s : AppState) (a b : ℤ) : Reachable s → Reachable (setTempDates s a b)
  | applyRange (s : AppState) : Reachable s → Reachable (apply_date_range s)
  | slider (s : AppState) (m : ℤ) : Reachable s → Reachable (set_min_score s m)
  | fetch (s : AppState) (df : List Post) :
      Reachable s → Reachable (fetch_button s df)

/-- A raw post as fetched: created at second 345600 (day 4).  The date and
Sentiment columns would be filled by the normalization body; in the current
code the normalizer call raises instead. -/
def exampleRawPost : Post := mkPost "hello".toList 1 1 345600 0 0 ""

/-- Behavior of get_morocco_metrics with an empty keyword list on a non-empty
collection whose search-term filtrate is non-empty: the keyword filter is
skipped (every post is treated as matching) and the metrics are computed over
the whole filtrate.  Shared by the theorems about keyword tagging. -/
theorem get_morocco_metrics_nil_keywords (df : List Post)
    (s : Option (List Char)) (h : df ≠ []) (h2 : searchTermFilter df s ≠ []) :
    get_morocco_metrics df [] s =
      some (mkMoroccoMetrics (searchTermFilter df s)) := by
  unfold get_morocco_metrics
  rw [if_neg (by simpa [List.isEmpty_iff] using h)]
  simp only [List.isEmpty_nil, Bool.not_true, Bool.false_eq_true, if_false]
  rw [if_neg (by simpa [List.isEmpty_iff] using h2)]

/-- C1: for every compound score c the classification is Positive iff
c is at least 5/100, Negative iff c is at most -5/100, Neutral exactly on the
open band in between, and always one of the three labels (totality). -/
theorem classify_sentiment_spec (c : ℚ) :
    (classify_sentiment c = "Positive" ↔ mkRat 5 100 ≤ c) ∧
    (classify_sentiment c = "Negative" ↔ c ≤ -(mkRat 5 100)) ∧
    (classify_sentiment c = "Neutral" ↔
      -(mkRat 5 100) < c ∧ c < mkRat 5 100) ∧
    (classify_sentiment c = "Positive" ∨ classify_sentiment c = "Negative" ∨
      classify_sentiment c = "Neutral") := by
  have hpos : (0 : ℚ) < mkRat 5 100 := by decide
  unfold classify_sentiment
  split_ifs with h1 h2
  · exact ⟨⟨fun _ => h1, fun _ => rfl⟩,
      ⟨fun h => absurd h (by decide), fun h => absurd hpos (by linarith)⟩,
      ⟨fun h => absurd h (by decide), fun hc => absurd h1 (not_le.mpr hc.2)⟩,
      Or.inl rfl⟩
  · exact ⟨⟨fun h => absurd h (by decide), fun h => absurd h h1⟩,
      ⟨fun _ => h2, fun _ => rfl⟩,
      ⟨fun h => absurd h (by decide), fun hc => absurd h2 (not_le.mpr hc.1)⟩,
      Or.inr (Or.inl rfl)⟩
  · exact ⟨⟨fun h => absurd h (by decide), fun h => absurd h h1⟩,
      ⟨fun h => absurd h (by decide), fun h => absurd h h2⟩,
      ⟨fun _ => ⟨not_le.mp h2, not_le.mp h1⟩, fun _ => rfl⟩,
      Or.inr (Or.inr rfl)⟩

/-- C2: the filter returns a subsequence of the input (hence in original
order), a post belongs to the result iff it belongs to the input and satisfies
both the inclusive date-range predicate and the score threshold, and
multiplicities are preserved exactly (every occurrence of a qualifying row is
retained, nothing else appears). -/
theorem filtered_df_spec (df : List Post) (s e m : ℤ) :
    (filtered_df df s e m).Sublist df ∧
    (∀ p : Post, p ∈ filtered_df df s e m ↔
      p ∈ df ∧ s ≤ p.date ∧ p.date ≤ e ∧ m ≤ p.score) ∧
    (∀ p : Post, (filtered_df df s e m).count p =
      if s ≤ p.date ∧ p.date ≤ e ∧ m ≤ p.score then df.count p else 0) := by
  refine ⟨List.filter_sublist df, fun p => ?_, fun p => ?_⟩
  · simp [filtered_df, List.mem_filter, and_assoc]
  · by_cases h : s ≤ p.date ∧ p.date ≤ e ∧ m ≤ p.score
    · rw [if_pos h]
      exact List.count_filter (by simp [h.1, h.2.1, h.2.2])
    · rw [if_neg h]
      refine List.count_eq_zero.mpr fun hmem => ?_
      have h2 := (List.mem_filter.mp hmem).2
      simp only [Bool.and_eq_true, decide_eq_true_eq] at h2
      exact h ⟨h2.1.1, h2.1.2, h2.2⟩

/-- C8 (code-bug evidence): evaluated at a concrete collection, the deployed
normalizer raises TypeError (the lru_cache wrapper hashes its unhashable
DataFrame argument), as does cached_processing, so no collection is ever
accepted by the normalizer as deployed, against the docstring Cached data
processing pipeline and the spec.  The date-derivation body the claim is
about — and the full normalize-and-label body — are idempotent: a second
application recomputes the same date from the unchanged created column and
the same label from the unchanged compound score. -/
theorem normalization_call_raises :
    process_reddit_data [exampleRawPost] = .error .typeError ∧
    cached_processing [exampleRawPost] = .error .typeError ∧
    (∀ df : List Post,
      process_reddit_data_body (process_reddit_data_body df) =
        process_reddit_data_body df) ∧
    (∀ df : List Post,
      cached_processing_body (cached_processing_body df) =
        cached_processing_body df) := by
  refine ⟨rfl, rfl, fun df => ?_, fun df => ?_⟩
  · unfold process_reddit_data_body
    rw [List.map_map]
    rfl
  · unfold cached_processing_body process_reddit_data_body
    simp only [List.map_map]
    rfl

/-- C3 counterexample: on a collection of size 0 the structured JSON export
succeeds and reports an undefined (NaN, modelled none) mean sentiment with
zero counts instead of any explicit insufficient-data error, and the PDF
metrics section performs the unguarded division by zero (ZeroDivisionError),
refuting the claim that a ComputationError is reported instead. -/
theorem report_builder_empty_counterexample :
    (generate_json [] "topic".toList).average_sentiment = none ∧
    (generate_json [] "topic".toList).total_posts = 0 ∧
    metricsSection [] "topic".toList = .error .zeroDivision :=
  ⟨rfl, rfl, rfl⟩

/-- C3 amended: on a collection of size 0 the JSON export returns a record
with an undefined (none) mean, zero total and zero per-label counts and no
error, while the PDF metrics section fails with the numeric
division-by-zero fault; neither path reports an explicit
ComputationError / insufficient-data condition. -/
theorem report_builder_empty_amended (df : List Post) (t : List Char)
    (h : df = []) :
    generate_json df t =
      { search_term := t, total_posts := 0, average_sentiment := none,
        positive := 0, negative := 0, neutral := 0, top_posts := [] } ∧
    metricsSection df t = .error .zeroDivision := by
  subst h
  exact ⟨rfl, rfl⟩

/-- C3 witness: the amended statement evaluated at the empty collection. -/
theorem report_builder_empty_amended_witness :
    generate_json [] "python".toList =
      { search_term := "python".toList, total_posts := 0,
        average_sentiment := none, positive := 0, negative := 0,
        neutral := 0, top_posts := [] } ∧
    metricsSection [] "python".toList = .error .zeroDivision :=
  report_builder_empty_amended [] "python".toList rfl

/-- C4: on every non-empty filtered collection the PDF metrics section
succeeds, and the numbers it renders (total post count, mean compound
sentiment, per-label counts) are identical to those of the independently
computed JSON export. -/
theorem pdf_json_numbers_agree (df : List Post) (t : List Char)
    (h : df ≠ []) :
    ∃ md : MetricsData, metricsSection df t = .ok md ∧
      md.total = (generate_json df t).total_posts ∧
      md.avg = (generate_json df t).average_sentiment ∧
      md.positive = (generate_json df t).positive ∧
      md.negative = (generate_json df t).negative ∧
      md.neutral = (generate_json df t).neutral := by
  have hlen : df.length ≠ 0 := fun hl => h (List.length_eq_zero.mp hl)
  refine ⟨{ searchTerm := t, total := df.length,
            avg := seriesMean (df.map (·.sentiment_compound)),
            positive := pdf_positive df, negative := pdf_negative df,
            neutral := pdf_neutral df,
            positivePct := (pdf_positive df : ℚ) / (df.length : ℚ) * 100,
            negativePct := (pdf_negative df : ℚ) / (df.length : ℚ) * 100,
            neutralPct := (pdf_neutral df : ℚ) / (df.length : ℚ) * 100 },
      ?_, rfl, rfl, rfl, rfl, rfl⟩
  unfold metricsSection pydiv
  simp only [if_neg hlen]
  rfl

/-- C4 witness: the agreement evaluated at a concrete one-post collection. -/
theorem pdf_json_numbers_agree_witness :
    ∃ md : MetricsData,
      metricsSection [post_hello] "x".toList = .ok md ∧
      md.total = (generate_json [post_hello] "x".toList).total_posts ∧
      md.avg = (generate_json [post_hello] "x".toList).average_sentiment ∧
      md.positive = (generate_json [post_hello] "x".toList).positive ∧
      md.negative = (generate_json [post_hello] "x".toList).negative ∧
      md.neutral = (generate_json [post_hello] "x".toList).neutral :=
  pdf_json_numbers_agree [post_hello] "x".toList (by decide)

/-- On every reachable session state the data is never ready and no processed
table is stored: the only interaction that could set them, the fetch click,
always lands in its except handler because cached_processing raises
TypeError on every call. -/
theorem reachable_no_data (s : AppState) (h : Reachable s) :
    s.dataReady = false ∧ s.originalDf = none := by
  induction h with
  | init today => exact ⟨rfl, rfl⟩
  | pick s a b _ ih => exact ih
  | applyRange s _ ih => exact ih
  | slider s m _ ih => exact ih
  | fetch s df _ ih =>
      unfold fetch_button
      by_cases hv : validate_inputs { s with fetchClicked := true } ≠ []
      · rw [if_pos hv]
        exact ⟨rfl, ih.2⟩
      · rw [if_neg hv]
        exact ⟨rfl, ih.2⟩

/-- C5 counterexample: the Apply interaction is a pure session-state copy
with no validation and no error report (src/app.py lines 182-185 and 241), so
the user reaches — with no fetch involved — a state whose applied date range,
the range the filter consumes, has start 5 strictly greater than end 3: the
inverted date-range input was accepted silently at its input boundary instead
of being reported as a validation error. -/
theorem inverted_applied_range_counterexample :
    Reachable (apply_date_range (setTempDates (initial_state 20000) 5 3)) ∧
    (apply_date_range (setTempDates (initial_state 20000) 5 3)).appliedEnd <
      (apply_date_range (setTempDates (initial_state 20000) 5 3)).appliedStart ∧
    validate_inputs (initial_state 20000) = [] :=
  ⟨.applyRange _ (.pick _ 5 3 (.init 20000)), by decide, by decide⟩

/-- C5 amended: an inverted date range is reported as a ValidationError only
by the fetch handler and only against the pending (temp) dates — such a fetch
reports the error and that run produces no filtered result.  The Apply button
copies an inverted pending range into the applied range with no validation
and no report.  Moreover, in the current code no reachable session state
produces a filtered result at all, because every fetch fails with the
normalizer TypeError before the dashboard gate opens; and the dates are never
silently swapped: a filtered result from an inverted applied range could only
be the empty collection. -/
theorem date_range_validation_amended :
    (∀ (s : AppState) (df : List Post), s.tempEnd < s.tempStart →
      validate_inputs s ≠ [] ∧
      renderFilteredDf (fetch_button s df) = none) ∧
    (∀ s : AppState, Reachable s → renderFilteredDf s = none) ∧
    (∀ s : AppState, s.appliedEnd < s.appliedStart →
      ∀ r : List Post, renderFilteredDf s = some r → r = []) := by
  refine ⟨?_, ?_, ?_⟩
  · intro s df h
    constructor
    · simp [validate_inputs, h]
    · have hv : validate_inputs { s with fetchClicked := true } ≠ [] := by
        simp [validate_inputs, h]
      unfold fetch_button
      rw [if_pos hv]
      unfold renderFilteredDf
      cases s.originalDf <;> simp
  · intro s h
    have h2 := (reachable_no_data s h).2
    unfold renderFilteredDf
    rw [h2]
  · intro s h r hr
    unfold renderFilteredDf at hr
    cases hdf : s.originalDf with
    | none => rw [hdf] at hr; exact absurd hr (by simp)
    | some df =>
        rw [hdf] at hr
        have hr' : (if s.fetchClicked && s.dataReady then
            some (filtered_df df s.appliedStart s.appliedEnd s.minScore)
          else none) = some r := hr
        by_cases hc : s.fetchClicked && s.dataReady
        · rw [if_pos hc] at hr'
          have hr2 : filtered_df df s.appliedStart s.appliedEnd s.minScore = r :=
            Option.some.inj hr'
          subst hr2
          refine List.filter_eq_nil_iff.mpr fun p _ => ?_
          simp only [Bool.and_eq_true, decide_eq_true_eq, not_and]
          intro h1 h2
          omega
        · rw [if_neg hc] at hr'
          exact absurd hr' (by simp)

/-- C5 witness: the amended statement evaluated on concrete states — a fetch
clicked with the inverted pending range 7..2 reports the error and yields no
result, and the reachable post-Apply state of the counterexample yields no
result either. -/
theorem date_range_validation_amended_witness :
    (validate_inputs (setTempDates (initial_state 20000) 7 2) ≠ [] ∧
      renderFilteredDf
        (fetch_button (setTempDates (initial_state 20000) 7 2)
          [exampleRawPost]) = none) ∧
    renderFilteredDf (apply_date_range (setTempDates (initial_state 20000) 5 3))
      = none :=
  ⟨date_range_validation_amended.1 (setTempDates (initial_state 20000) 7 2)
      [exampleRawPost] (by decide),
   date_range_validation_amended.2.1 _
      (.applyRange _ (.pick _ 5 3 (.init 20000)))⟩

/-- The search-term pre-filter is the pointwise filter by searchPass. -/
theorem searchTermFilter_eq_filter (l : List Post) (s : Option (List Char)) :
    searchTermFilter l s = l.filter (searchPass s) := by
  cases s with
  | none => exact (List.filter_eq_self.mpr fun a _ => rfl).symm
  | some t =>
      show (if t.isEmpty = true then l
        else List.filter (fun p => containsCI t p.title) l) =
          List.filter (searchPass (some t)) l
      by_cases ht : t.isEmpty
      · rw [if_pos ht]
        exact (List.filter_eq_self.mpr fun a _ => by simp [searchPass, ht]).symm
      · rw [if_neg ht]
        exact List.filter_congr fun a _ => by simp [searchPass, ht]

/-- C6 counterexample: the Morocco tagger called with the empty keyword list
on a one-post collection returns a present entry (metrics over the whole
collection), and an industry category with an empty term list produces an
entry counting every post, although no post title contains at least one of
the zero keywords — refuting the claim that a category with an empty keyword
set is absent from the output. -/
theorem empty_keyword_category_counterexample :
    (get_morocco_metrics [post_hello] [] none).isSome = true ∧
    (categoryResult [post_hello] none "NoKeywords" []).isSome = true ∧
    (categoryResult [post_hello] none "NoKeywords" []).map (·.Posts) =
      some 1 ∧
    ∀ k, k ∈ ([] : List (List Char)) → containsCI k post_hello.title = false :=
  ⟨rfl, rfl, rfl, fun k hk => absurd hk (List.not_mem_nil k)⟩

/-- C6 amended: an industry category appears in the tagging output iff some
post passes the search filter and matches the category pattern, where the
pattern built from an empty term list (the empty regex) matches every title;
hence for a non-empty term list an entry appears iff some post contains one
of the terms, while an empty-term category appears whenever any post passes
the search filter.  Likewise the Morocco tagger with an empty keyword list
returns metrics over the whole search filtrate instead of being absent. -/
theorem keyword_tagging_amended :
    (∀ (df : List Post) (s : Option (List Char)) (name : String)
        (terms : List (List Char)),
      (categoryResult df s name terms).isSome = true ↔
        ∃ p ∈ df, categoryMatch terms p.title = true ∧ searchPass s p = true) ∧
    (∀ (df : List Post) (s : Option (List Char)),
      df ≠ [] → searchTermFilter df s ≠ [] →
      get_morocco_metrics df [] s =
        some (mkMoroccoMetrics (searchTermFilter df s))) := by
  constructor
  · intro df s name terms
    dsimp only [categoryResult]
    rw [searchTermFilter_eq_filter, List.filter_filter]
    by_cases he :
        (df.filter fun p => searchPass s p && categoryMatch terms p.title)
          |>.isEmpty
    · rw [if_pos he]
      rw [List.isEmpty_iff] at he
      simp only [Option.isSome_none, Bool.false_eq_true, false_iff]
      rintro ⟨p, hp, h1, h2⟩
      have : p ∈ (df.filter fun p =>
          searchPass s p && categoryMatch terms p.title) :=
        List.mem_filter.mpr ⟨hp, by simp [h1, h2]⟩
      rw [he] at this
      exact absurd this (List.not_mem_nil p)
    · rw [if_neg he]
      simp only [Option.isSome_some, true_iff]
      rw [List.isEmpty_iff] at he
      obtain ⟨p, hp⟩ := List.exists_mem_of_ne_nil _ he
      have hf := List.mem_filter.mp hp
      have hf2 := hf.2
      simp only [Bool.and_eq_true] at hf2
      exact ⟨p, hf.1, hf2.2, hf2.1⟩
  · exact fun df s h h2 => get_morocco_metrics_nil_keywords df s h h2

/-- C6 witness: a Tourism entry appears because one post contains the term
travel, and the Morocco tagger with no keywords but a search term returns
metrics over the whole search filtrate. -/
theorem keyword_tagging_amended_witness :
    (categoryResult [post_older] none "Tourism" ["travel".toList]).isSome
      = true ∧
    get_morocco_metrics [post_hello] [] (some "hello".toList) =
      some (mkMoroccoMetrics
        (searchTermFilter [post_hello] (some "hello".toList))) :=
  ⟨(keyword_tagging_amended.1 [post_older] none "Tourism"
      ["travel".toList]).mpr ⟨post_older, by decide, by decide, by decide⟩,
   keyword_tagging_amended.2 [post_hello] (some "hello".toList)
      (by decide) (by decide)⟩

/-- C7 (code-bug evidence): with the Most Recent criterion the selection
sorts ascending by date and takes the head, so with two posts dated day 0
and day 1 and N = 1 it returns the day-0 post — the oldest — although the
day-1 post has the strictly larger (more recent) date.  The code contradicts
its own Most Recent label, which the claim restates. -/
theorem most_recent_selects_oldest :
    top_posts [post_newer, post_older] .mostRecent 1 = [post_older] ∧
    post_older.date < post_newer.date := by
  exact ⟨rfl, by decide⟩

/-- C9 counterexample: on the empty collection the metrics section raises
before any output, and on this error exit path the cleanup of
generate_pdf (deleting the chart files and removing the per-invocation
temporary directory) is skipped entirely, refuting the claim that temporary
chart resources are released on every exit path. -/
theorem pdf_cleanup_error_path_counterexample :
    (generate_pdf [] "x".toList).ok = false ∧
    (generate_pdf [] "x".toList).tempDirRemoved = false ∧
    (generate_pdf [] "x".toList).chartsDeleted = [] :=
  ⟨rfl, rfl, rfl⟩

/-- C9 amended: the cleanup runs only on the successful exit path: when
assembly returns normally every created chart file is deleted and the
temporary directory is removed, and when assembly raises nothing is deleted
and the temporary directory persists. -/
theorem pdf_cleanup_amended (df : List Post) (t : List Char) :
    ((generate_pdf df t).ok = true →
      (generate_pdf df t).chartsDeleted = (generate_pdf df t).chartsCreated ∧
      (generate_pdf df t).tempDirRemoved = true) ∧
    ((generate_pdf df t).ok = false →
      (generate_pdf df t).chartsDeleted = [] ∧
      (generate_pdf df t).tempDirRemoved = false) := by
  unfold generate_pdf
  cases hb : buildPdfContent df t with
  | mk r files => cases r <;> simp

/-- C9 witness: the amended statement evaluated on a one-post collection
(success path, directory removed) and on the empty collection (error path,
directory left behind). -/
theorem pdf_cleanup_amended_witness :
    (generate_pdf [post_hello] "x".toList).tempDirRemoved = true ∧
    (generate_pdf [] "x".toList).tempDirRemoved = false :=
  ⟨((pdf_cleanup_amended [post_hello] "x".toList).1 rfl).2,
   ((pdf_cleanup_amended [] "x".toList).2 rfl).2⟩

/-- C10: on a non-empty collection whose search filtrate is non-empty, the
Morocco metric computation with an empty keyword list treats every remaining
post as matching: it returns metrics whose post set is the whole filtrate and
whose count is its full length (with no search term, the whole collection),
rather than returning no result. -/
theorem morocco_empty_keywords_metrics (df : List Post)
    (s : Option (List Char)) (h : df ≠ []) (h2 : searchTermFilter df s ≠ []) :
    get_morocco_metrics df [] s =
      some (mkMoroccoMetrics (searchTermFilter df s)) ∧
    (mkMoroccoMetrics (searchTermFilter df s)).morocco_posts =
      searchTermFilter df s ∧
    (mkMoroccoMetrics (searchTermFilter df s)).post_count =
      (searchTermFilter df s).length ∧
    get_morocco_metrics df [] none = some (mkMoroccoMetrics df) :=
  ⟨get_morocco_metrics_nil_keywords df s h h2, rfl, rfl,
   get_morocco_metrics_nil_keywords df none h h⟩

/-- C10 witness: the statement evaluated on a concrete one-post collection
with no search term. -/
theorem morocco_empty_keywords_metrics_witness :
    get_morocco_metrics [post_hello] [] none =
      some (mkMoroccoMetrics (searchTermFilter [post_hello] none)) :=
  (morocco_empty_keywords_metrics [post_hello] none (by decide)
    (by decide)).1
